import Mathlib

/-!
Shallow embedding of the weather dashboard in src/src/App.tsx and
src/src/types.ts.

The React component's state is modelled by `AppState`; each `setX` call of
the source becomes a functional update of that state.  Network results are
passed in explicitly: `fetchWeatherData` maps an HTTP outcome to
`Option WeatherData` exactly as the source's try/catch does, and the
state-transition functions (`refreshWeather`, `loadInitialData`,
`handleSearch`) take an oracle `f : String → Option WeatherData` standing
for `await fetchWeatherData(city)`.  JavaScript numbers are modelled by `ℚ`
(temperatures, wind speed) and `Int` (API city ids); `Date` timestamps by
`Nat`.
-/

/-- One city's normalized current-weather snapshot (`WeatherData` in
src/src/types.ts). -/
structure WeatherData where
  id : Int
  city : String
  temperature : ℚ
  feelsLike : ℚ
  description : String
  humidity : Nat
  windSpeed : ℚ
  icon : String
  lastUpdated : Nat
deriving DecidableEq, Repr

/-- The `main` object of the API response (src/src/types.ts). -/
structure WeatherMain where
  temp : ℚ
  feels_like : ℚ
  humidity : Nat
deriving DecidableEq, Repr

/-- One entry of the `weather` array of the API response (src/src/types.ts). -/
structure WeatherEntry where
  description : String
  icon : String
deriving DecidableEq, Repr

/-- The `wind` object of the API response (src/src/types.ts). -/
structure WeatherWind where
  speed : ℚ
deriving DecidableEq, Repr

/-- The API response body (`WeatherResponse` in src/src/types.ts). -/
structure WeatherResponse where
  main : WeatherMain
  weather : List WeatherEntry
  wind : WeatherWind
  name : String
  id : Int
deriving DecidableEq, Repr

/-- Outcome of the axios GET in `fetchWeatherData`: `failure` covers a
network error or a non-2xx status (axios throws), `success` carries the
parsed body. -/
inductive HttpResult where
  | failure
  | success (resp : WeatherResponse)
deriving DecidableEq, Repr

/-- `fetchWeatherData` (App.tsx lines 33-54): maps the HTTP outcome to a
`WeatherData` or `null` (`none`).  An axios throw is caught and yields
`null`; an empty `weather` array makes `response.data.weather[0].description`
throw inside the same `try`, which is also caught and yields `null`.
`now` is the value of `new Date()` at the moment of the response. -/
def fetchWeatherData (now : Nat) (r : HttpResult) : Option WeatherData :=
  match r with
  | .failure => none
  | .success resp =>
    match resp.weather with
    | [] => none
    | w :: _ =>
      some { id := resp.id, city := resp.name, temperature := resp.main.temp,
             feelsLike := resp.main.feels_like, description := w.description,
             humidity := resp.main.humidity, windSpeed := resp.wind.speed,
             icon := w.icon, lastUpdated := now }

/-- JavaScript `String.prototype.trim`: drop whitespace from both ends.
Written over the character list so that it evaluates by kernel reduction
(`String.trim` of core Lean is defined through well-founded recursion). -/
def jsTrim (s : String) : String :=
  String.mk (((s.data.dropWhile Char.isWhitespace).reverse.dropWhile
    Char.isWhitespace).reverse)

/-- The React component's state (App.tsx lines 10-15). -/
structure AppState where
  weatherData : List WeatherData
  loading : Bool
  searchCity : String
  error : String
  isCelsius : Bool
  retrying : Bool
deriving DecidableEq, Repr

/-- `DEFAULT_CITIES` (App.tsx line 7). -/
def DEFAULT_CITIES : List String := ["London", "New York", "Tokyo", "Paris", "Sydney"]

/-- `refreshWeather` (App.tsx lines 56-69).  `f` stands for
`await fetchWeatherData(city)`; JavaScript `===` on numbers is `decide (_ = _)`.
The early return on a missing id leaves the state untouched; otherwise
`retrying` ends up `false` and, on success, every record whose id equals
`cityId` is replaced by `updatedData` via `Array.prototype.map`. -/
def refreshWeather (f : String → Option WeatherData) (cityId : Int) (s : AppState) : AppState :=
  match s.weatherData.find? (fun d => decide (d.id = cityId)) with
  | none => s
  | some cityToRefresh =>
    match f cityToRefresh.city with
    | some updatedData =>
      { s with retrying := false,
               weatherData := s.weatherData.map
                 (fun d => if d.id = cityId then updatedData else d) }
    | none => { s with retrying := false }

/-- `loadInitialData` (App.tsx lines 71-80): one fetch per city, in order;
`results.filter(data => data !== null)` keeps the successes in order. -/
def loadInitialData (f : String → Option WeatherData) (cities : List String) (s : AppState) : AppState :=
  { s with weatherData := (cities.map f).filterMap (fun x => x),
           loading := false }

/-- `handleSearch` (App.tsx lines 82-105).  A blank query returns before any
state update.  Otherwise `setError('')` runs, the fetch resolves, and on
success records sharing the returned `city` name are filtered out before the
new record is prepended; on `null` the error message is set.  `setLoading`
brackets the fetch, so `loading` ends `false` on the non-blank paths. -/
def handleSearch (f : String → Option WeatherData) (s : AppState) : AppState :=
  if jsTrim s.searchCity = "" then s
  else
    match f s.searchCity with
    | some newWeatherData =>
      { s with error := "",
               weatherData := newWeatherData ::
                 s.weatherData.filter (fun item => decide (item.city ≠ newWeatherData.city)),
               searchCity := "",
               loading := false }
    | none =>
      { s with error := "City not found. Please try again.", loading := false }

/-- `convertTemp` (App.tsx lines 17-19), with the `isCelsius` flag passed
explicitly. -/
def convertTemp (isCelsius : Bool) (celsius : ℚ) : ℚ :=
  if isCelsius then celsius else celsius * 9 / 5 + 32

/-- `Math.round`: round half toward positive infinity. -/
def jsRound (x : ℚ) : Int := ⌊x + 1 / 2⌋

/-- `formatTemp` (App.tsx lines 21-23). -/
def formatTemp (isCelsius : Bool) (temp : ℚ) : String :=
  toString (jsRound temp) ++ "°" ++ (if isCelsius then "C" else "F")

/-- The displayed temperature (App.tsx line 172):
`formatTemp(convertTemp(t))`, the spec's `displayTemp`. -/
def displayTemp (celsius : ℚ) (useCelsius : Bool) : String :=
  formatTemp useCelsius (convertTemp useCelsius celsius)

/- Concrete records used by counterexamples and witnesses. -/

/-- Record with id 1 and city "A". -/
def wA : WeatherData :=
  { id := 1, city := "A", temperature := 10, feelsLike := 9, description := "clear",
    humidity := 50, windSpeed := 3, icon := "01d", lastUpdated := 0 }

/-- Record with id 2 and city "B". -/
def wB : WeatherData :=
  { id := 2, city := "B", temperature := 20, feelsLike := 19, description := "rain",
    humidity := 60, windSpeed := 4, icon := "02d", lastUpdated := 1 }

/-- Record with id 1 and city "B": same id as `wA`, different city. -/
def wB1 : WeatherData :=
  { id := 1, city := "B", temperature := 21, feelsLike := 20, description := "snow",
    humidity := 65, windSpeed := 5, icon := "04d", lastUpdated := 3 }

/-- Record with id 2 and city "A": same city as `wA`, different id. -/
def wA2 : WeatherData :=
  { id := 2, city := "A", temperature := 11, feelsLike := 10, description := "mist",
    humidity := 55, windSpeed := 2, icon := "03d", lastUpdated := 2 }

/-- Record with id 3 and city "A". -/
def wA3 : WeatherData :=
  { id := 3, city := "A", temperature := 12, feelsLike := 11, description := "haze",
    humidity := 45, windSpeed := 1, icon := "05d", lastUpdated := 4 }

/-- An initial state with an empty collection. -/
def baseState : AppState :=
  { weatherData := [], loading := true, searchCity := "", error := "",
    isCelsius := true, retrying := false }

/-- A well-formed API response for city "A". -/
def respA : WeatherResponse :=
  { main := { temp := 10, feels_like := 9, humidity := 50 },
    weather := [{ description := "clear", icon := "01d" }],
    wind := { speed := 3 }, name := "A", id := 1 }

/- Helper lemmas about the list operations the transitions use. -/

/-- Keeping the non-`none` entries of a list of options drops exactly the
`none`s: the resulting length is the original minus the number of `none`s. -/
theorem length_filterMap_option {α : Type} (l : List (Option α)) :
    (l.filterMap (fun x => x)).length = l.length - l.countP (fun x => x.isNone) := by
  induction l with
  | nil => rfl
  | cons x t ih =>
    have hle := List.countP_le_length (p := fun x : Option α => x.isNone) (l := t)
    cases x with
    | none => simp [List.countP_cons, ih]
    | some a =>
      simp only [List.filterMap_cons_some, List.length_cons, List.countP_cons, ih]
      simp
      omega

/-- Filtering away the records of one city removes exactly the records whose
city matches. -/
theorem length_filter_city (l : List WeatherData) (c : String) :
    (l.filter (fun item => decide (item.city ≠ c))).length
      = l.length - l.countP (fun item => decide (item.city = c)) := by
  simp only [ne_eq, decide_not]
  induction l with
  | nil => rfl
  | cons x t ih =>
    have hle := List.countP_le_length (p := fun item : WeatherData => decide (item.city = c)) (l := t)
    by_cases hx : x.city = c
    · simp [List.filter_cons, List.countP_cons, hx, ih]
    · simp [List.filter_cons, List.countP_cons, hx, ih]
      omega

/-- Pointwise replacement of the value `i` by a value `j` that occurs nowhere
in the list preserves distinctness. -/
theorem nodup_map_update_of_not_mem (i j : Int) (l : List Int) (hj : j ∉ l) (h : l.Nodup) :
    (l.map (fun x => if x = i then j else x)).Nodup := by
  induction l with
  | nil => simp
  | cons x t ih =>
    simp only [List.map_cons, List.nodup_cons] at h ⊢
    obtain ⟨hx, ht⟩ := h
    have hjx : j ≠ x := fun hc => hj (hc ▸ List.mem_cons_self x t)
    have hjt : j ∉ t := fun hmem => hj (List.mem_cons_of_mem _ hmem)
    refine ⟨?_, ih hjt ht⟩
    intro hmem
    rw [List.mem_map] at hmem
    obtain ⟨y, hy, hval⟩ := hmem
    by_cases hxi : x = i
    · by_cases hyi : y = i
      · exact hx (hxi ▸ hyi ▸ hy)
      · rw [if_pos hxi, if_neg hyi] at hval
        exact hjt (hval ▸ hy)
    · by_cases hyi : y = i
      · rw [if_neg hxi, if_pos hyi] at hval
        exact hjx hval
      · rw [if_neg hxi, if_neg hyi] at hval
        exact hx (hval ▸ hy)

/-- Pointwise replacement of the value `i` by a value `j` preserves
distinctness when `j` is `i` itself or fresh for the list. -/
theorem nodup_map_update (i j : Int) (l : List Int) (h : l.Nodup)
    (hj : j = i ∨ j ∉ l) : (l.map (fun x => if x = i then j else x)).Nodup := by
  rcases hj with hj | hj
  · have hfun : (fun x : Int => if x = i then j else x) = fun x => x := by
      funext x
      by_cases hx : x = i <;> simp [hx, hj]
    rw [hfun]
    simpa using h
  · exact nodup_map_update_of_not_mem i j l hj h

/-- Claim C3: for every list of default cities and every assignment of fetch
outcomes, `loadInitialData` sets the collection to exactly the successful
results, in the order the corresponding cities appear in the list, and the
collection size equals the number of cities minus the number of failed
fetches. -/
theorem C3_initialize_filters_successes (f : String → Option WeatherData)
    (cities : List String) (s : AppState) :
    (loadInitialData f cities s).weatherData = cities.filterMap f ∧
    (loadInitialData f cities s).weatherData.length
      = cities.length - cities.countP (fun c => (f c).isNone) := by
  have hcoll : (loadInitialData f cities s).weatherData
      = (cities.map f).filterMap (fun x => x) := rfl
  constructor
  · rw [hcoll, List.filterMap_map]
    rfl
  · rw [hcoll, length_filterMap_option, List.length_map, List.countP_map]
    rfl

/-- Claim C5: a search whose query is non-blank and whose fetch fails leaves
the collection exactly unchanged and sets the non-empty error message
"City not found. Please try again.". -/
theorem C5_search_failure_sets_error (f : String → Option WeatherData) (s : AppState)
    (hq : jsTrim s.searchCity ≠ "") (hf : f s.searchCity = none) :
    (handleSearch f s).weatherData = s.weatherData ∧
    (handleSearch f s).error = "City not found. Please try again." ∧
    (handleSearch f s).error ≠ "" := by
  unfold handleSearch
  rw [if_neg hq, hf]
  refine ⟨rfl, rfl, ?_⟩
  show ("City not found. Please try again." : String) ≠ ""
  decide

/-- Claim C5 witness: a concrete failing search on a one-record collection. -/
theorem C5_search_failure_sets_error_witness :
    (handleSearch (fun _ => none) { baseState with weatherData := [wA], searchCity := "Q" }).weatherData = [wA] ∧
    (handleSearch (fun _ => none) { baseState with weatherData := [wA], searchCity := "Q" }).error
      = "City not found. Please try again." ∧
    (handleSearch (fun _ => none) { baseState with weatherData := [wA], searchCity := "Q" }).error ≠ "" :=
  C5_search_failure_sets_error (fun _ => none) _ (by decide) rfl

/-- Claim C6: a search with an empty or whitespace-only query is a no-op for
every fetch oracle: the whole state, in particular the collection and the
error message, is unchanged, and the result does not depend on the fetch. -/
theorem C6_blank_search_noop (f : String → Option WeatherData) (s : AppState)
    (hq : jsTrim s.searchCity = "") :
    handleSearch f s = s ∧
    (handleSearch f s).weatherData = s.weatherData ∧
    (handleSearch f s).error = s.error := by
  have h : handleSearch f s = s := by
    unfold handleSearch
    rw [if_pos hq]
  exact ⟨h, by rw [h], by rw [h]⟩

/-- Claim C6 witness: a whitespace-only query on a state with data and a
stale error message. -/
theorem C6_blank_search_noop_witness :
    handleSearch (fun _ => some wB) { baseState with weatherData := [wA], searchCity := "   ", error := "old" }
      = { baseState with weatherData := [wA], searchCity := "   ", error := "old" } :=
  (C6_blank_search_noop (fun _ => some wB) _ (by decide)).1

/-- Claim C7: a refresh for an id that no record of the collection carries is
a no-op: the state is returned unchanged, for every fetch oracle. -/
theorem C7_refresh_absent_noop (f : String → Option WeatherData) (i : Int) (s : AppState)
    (h : ∀ d ∈ s.weatherData, d.id ≠ i) :
    refreshWeather f i s = s := by
  have hfind : s.weatherData.find? (fun d => decide (d.id = i)) = none := by
    rw [List.find?_eq_none]
    intro d hd
    simp [h d hd]
  unfold refreshWeather
  rw [hfind]

/-- Claim C7 witness: refreshing id 99 on a collection holding only id 1. -/
theorem C7_refresh_absent_noop_witness :
    refreshWeather (fun _ => some wB) 99 { baseState with weatherData := [wA] }
      = { baseState with weatherData := [wA] } :=
  C7_refresh_absent_noop (fun _ => some wB) 99 _ (by decide)

/-- Claim C8: a refresh for a present id whose fetch fails leaves the
collection unchanged and surfaces no error message. -/
theorem C8_refresh_failure_silent (f : String → Option WeatherData) (i : Int) (s : AppState)
    (hmem : ∃ d ∈ s.weatherData, d.id = i) (hf : ∀ q, f q = none) :
    (refreshWeather f i s).weatherData = s.weatherData ∧
    (refreshWeather f i s).error = s.error := by
  obtain ⟨d, hd, hdi⟩ := hmem
  have hsome : (s.weatherData.find? (fun d => decide (d.id = i))).isSome := by
    rw [List.find?_isSome]
    exact ⟨d, hd, by simp [hdi]⟩
  obtain ⟨c, hc⟩ := Option.isSome_iff_exists.mp hsome
  simp [refreshWeather, hc, hf]

/-- Claim C8 witness: a failing refresh of the one present record. -/
theorem C8_refresh_failure_silent_witness :
    (refreshWeather (fun _ => none) 1 { baseState with weatherData := [wA] }).weatherData = [wA] ∧
    (refreshWeather (fun _ => none) 1 { baseState with weatherData := [wA] }).error = "" :=
  C8_refresh_failure_silent (fun _ => none) 1 _ (by decide) (fun _ => rfl)

/-- Claim C9: the displayed temperature is the stored Celsius value when the
flag is Celsius and `celsius * 9/5 + 32` otherwise, rounded to the nearest
integer and suffixed with the unit; in particular the three concrete values
of the spec. -/
theorem C9_displayTemp_conversion (c : ℚ) :
    displayTemp c true = toString (jsRound c) ++ "°C" ∧
    displayTemp c false = toString (jsRound (c * 9 / 5 + 32)) ++ "°F" ∧
    displayTemp 0 true = "0°C" ∧
    displayTemp 0 false = "32°F" ∧
    displayTemp 100 false = "212°F" := by
  refine ⟨?_, ?_, ?_, ?_, ?_⟩
  · show toString (jsRound (convertTemp true c)) ++ "°" ++ "C" = toString (jsRound c) ++ "°C"
    rw [String.append_assoc]
    rfl
  · show toString (jsRound (convertTemp false c)) ++ "°" ++ "F"
        = toString (jsRound (c * 9 / 5 + 32)) ++ "°F"
    rw [String.append_assoc]
    rfl
  · have h : jsRound (convertTemp true 0) = 0 := by
      unfold jsRound convertTemp
      norm_num
    simp [displayTemp, formatTemp, h]
    decide
  · have h : jsRound (convertTemp false 0) = 32 := by
      unfold jsRound convertTemp
      norm_num
    simp [displayTemp, formatTemp, h]
    decide
  · have h : jsRound (convertTemp false 100) = 212 := by
      unfold jsRound convertTemp
      norm_num
    simp [displayTemp, formatTemp, h]
    decide

/-- Claim C10: the fetch mapping is total — every failure path (an axios
throw for a network error or non-2xx status, or a malformed body with an
empty `weather` array) yields `none` rather than an exception — so a failed
non-blank search surfaces exactly "City not found. Please try again.", and
no search can surface the catch-branch message "Failed to fetch weather
data. Please try again.": after any search the error is the old one (blank
query), empty (success), or the not-found message. -/
theorem C10_fetch_total_and_message (resp : WeatherResponse) (now : Nat)
    (f g : String → Option WeatherData) (s t : AppState)
    (hq : jsTrim s.searchCity ≠ "") (hf : f s.searchCity = none) :
    fetchWeatherData now HttpResult.failure = none ∧
    fetchWeatherData now (HttpResult.success { resp with weather := [] }) = none ∧
    (handleSearch f s).error = "City not found. Please try again." ∧
    ((handleSearch g t).error = t.error ∨ (handleSearch g t).error = "" ∨
      (handleSearch g t).error = "City not found. Please try again.") := by
  refine ⟨rfl, rfl, ?_, ?_⟩
  · unfold handleSearch
    rw [if_neg hq, hf]
  · unfold handleSearch
    by_cases ht : jsTrim t.searchCity = ""
    · rw [if_pos ht]
      exact Or.inl rfl
    · rw [if_neg ht]
      cases hgt : g t.searchCity with
      | none => exact Or.inr (Or.inr rfl)
      | some d => exact Or.inr (Or.inl rfl)

/-- Claim C10 witness: the failure paths at a concrete response and a
concrete failing search, plus a concrete successful search. -/
theorem C10_fetch_total_and_message_witness :
    fetchWeatherData 0 HttpResult.failure = none ∧
    fetchWeatherData 0 (HttpResult.success { respA with weather := [] }) = none ∧
    (handleSearch (fun _ => none) { baseState with searchCity := "Q" }).error
      = "City not found. Please try again." ∧
    ((handleSearch (fun _ => some wB) { baseState with searchCity := "B" }).error
        = ({ baseState with searchCity := "B" } : AppState).error ∨
      (handleSearch (fun _ => some wB) { baseState with searchCity := "B" }).error = "" ∨
      (handleSearch (fun _ => some wB) { baseState with searchCity := "B" }).error
        = "City not found. Please try again.") :=
  C10_fetch_total_and_message respA 0 (fun _ => none) (fun _ => some wB)
    { baseState with searchCity := "Q" } { baseState with searchCity := "B" }
    (by decide) rfl

/-- Claim C1 counterexample: the API may return a different id for the same
city.  Refreshing id 1 when the fetch returns a record with id 2 replaces the
record, and its id changes from 1 to 2 — so "the replaced record's id is
unchanged" fails as stated. -/
theorem C1_counterexample :
    ({ baseState with weatherData := [wA] } : AppState).weatherData.map WeatherData.id = [1] ∧
    (refreshWeather (fun _ => some wB) 1
        { baseState with weatherData := [wA] }).weatherData.map WeatherData.id = [2] := by
  decide

/-- Claim C1 as amended: a successful refresh of a present id replaces each
record whose id equals the argument (exactly one when ids are distinct) with
the newly fetched record at that record's current position, leaving all
other records in place and the length unchanged; the resulting record's id
is the fetched record's id, which need not equal the argument. -/
theorem C1_amended_refresh_replaces_in_place (f : String → Option WeatherData)
    (i : Int) (s : AppState) (c r : WeatherData)
    (hfind : s.weatherData.find? (fun d => decide (d.id = i)) = some c)
    (hfetch : f c.city = some r) :
    (refreshWeather f i s).weatherData
        = s.weatherData.map (fun d => if d.id = i then r else d) ∧
    (refreshWeather f i s).weatherData.length = s.weatherData.length := by
  have hcoll : (refreshWeather f i s).weatherData
      = s.weatherData.map (fun d => if d.id = i then r else d) := by
    simp [refreshWeather, hfind, hfetch]
  exact ⟨hcoll, by rw [hcoll, List.length_map]⟩

/-- Claim C1 amended witness: refreshing id 1 with a fetched record. -/
theorem C1_amended_refresh_replaces_in_place_witness :
    (refreshWeather (fun _ => some wB) 1 { baseState with weatherData := [wA] }).weatherData
        = [wA].map (fun d => if d.id = 1 then wB else d) ∧
    (refreshWeather (fun _ => some wB) 1 { baseState with weatherData := [wA] }).weatherData.length
        = ({ baseState with weatherData := [wA] } : AppState).weatherData.length :=
  C1_amended_refresh_replaces_in_place (fun _ => some wB) 1 _ wA wB (by decide) rfl

/-- Claim C2 counterexample: the operations do not preserve id-uniqueness for
every fetch outcome.  Searching city "B" when the fetch returns a record with
id 1 and city "B", over a collection holding id 1 for city "A", yields two
records with id 1: search deduplicates by city name, not by id. -/
theorem C2_counterexample :
    (({ baseState with weatherData := [wA], searchCity := "B" } : AppState).weatherData.map
        WeatherData.id).Nodup ∧
    ¬ (((handleSearch (fun _ => some wB1)
        { baseState with weatherData := [wA], searchCity := "B" }).weatherData.map
        WeatherData.id).Nodup) := by
  decide

/-- Claim C2 as amended: id-uniqueness holds after the operations under the
conditions the code actually relies on — initialize yields distinct ids when
the successful fetch results carry distinct ids; a successful search
preserves distinct ids when the fetched record's id does not occur among the
retained records (those of other cities); a successful refresh preserves
distinct ids when the fetched record's id is the refreshed id itself or is
fresh for the collection. -/
theorem C2_amended_id_uniqueness (s : AppState) (f : String → Option WeatherData)
    (cities : List String) (i : Int) (c r : WeatherData) :
    ((((cities.map f).filterMap (fun x => x)).map WeatherData.id).Nodup →
      (((loadInitialData f cities s).weatherData).map WeatherData.id).Nodup) ∧
    (f s.searchCity = some r →
      (s.weatherData.map WeatherData.id).Nodup →
      r.id ∉ (s.weatherData.filter (fun item => decide (item.city ≠ r.city))).map WeatherData.id →
      (((handleSearch f s).weatherData).map WeatherData.id).Nodup) ∧
    (s.weatherData.find? (fun d => decide (d.id = i)) = some c →
      f c.city = some r →
      (s.weatherData.map WeatherData.id).Nodup →
      (r.id = i ∨ r.id ∉ s.weatherData.map WeatherData.id) →
      (((refreshWeather f i s).weatherData).map WeatherData.id).Nodup) := by
  refine ⟨fun h => h, ?_, ?_⟩
  · intro hf hnd hnotin
    unfold handleSearch
    by_cases hb : jsTrim s.searchCity = ""
    · rw [if_pos hb]
      exact hnd
    · rw [if_neg hb, hf]
      simp only [List.map_cons, List.nodup_cons]
      refine ⟨hnotin, ?_⟩
      exact List.Nodup.sublist (List.Sublist.map WeatherData.id (List.filter_sublist _)) hnd
  · intro hfind hfetch hnd hcase
    have hcoll : (refreshWeather f i s).weatherData
        = s.weatherData.map (fun d => if d.id = i then r else d) := by
      simp [refreshWeather, hfind, hfetch]
    rw [hcoll, List.map_map]
    have hcomp : (WeatherData.id ∘ fun d => if d.id = i then r else d)
        = (fun x : Int => if x = i then r.id else x) ∘ WeatherData.id := by
      funext d
      by_cases hd : d.id = i <;> simp [Function.comp, hd]
    rw [hcomp, ← List.map_map]
    exact nodup_map_update i r.id _ hnd hcase

/-- Claim C2 amended witness: the three conditions at concrete inputs — a
one-city initialize, a search replacing the only record of the same city,
and a refresh whose fetched id is fresh. -/
theorem C2_amended_id_uniqueness_witness :
    (((loadInitialData (fun _ => some wA) ["A"] baseState).weatherData).map WeatherData.id).Nodup ∧
    (((handleSearch (fun _ => some wA3)
        { baseState with weatherData := [wA], searchCity := "A" }).weatherData).map WeatherData.id).Nodup ∧
    (((refreshWeather (fun _ => some wB) 1
        { baseState with weatherData := [wA] }).weatherData).map WeatherData.id).Nodup :=
  ⟨(C2_amended_id_uniqueness baseState (fun _ => some wA) ["A"] 0 wA wA).1 (by decide),
   (C2_amended_id_uniqueness { baseState with weatherData := [wA], searchCity := "A" }
      (fun _ => some wA3) [] 0 wA wA3).2.1 rfl (by decide) (by decide),
   (C2_amended_id_uniqueness { baseState with weatherData := [wA] }
      (fun _ => some wB) [] 1 wA wB).2.2 (by decide) rfl (by decide) (by decide)⟩

/-- Claim C4 counterexample: with two records of the same city in the
collection, a successful search for that city removes both and prepends one,
so the collection size shrinks from 2 to 1 — "keeps the collection size
unchanged" fails for a collection with duplicate city names. -/
theorem C4_counterexample :
    (∃ d ∈ ({ baseState with weatherData := [wA, wA2], searchCity := "A" } : AppState).weatherData,
        d.city = "A") ∧
    (handleSearch (fun _ => some wA3)
        { baseState with weatherData := [wA, wA2], searchCity := "A" }).weatherData.length
      ≠ ({ baseState with weatherData := [wA, wA2], searchCity := "A" } : AppState).weatherData.length := by
  decide

/-- Claim C4 as amended: a successful non-blank search prepends the fetched
record `r` to the old collection with every record whose city equals
`r.city` removed; in particular, when exactly one record's city equals
`r.city` (always the case when city names are pairwise distinct), the
collection size is unchanged and that city's record, now `r`, sits at
index 0. -/
theorem C4_amended_search_prepends (f : String → Option WeatherData) (s : AppState) (r : WeatherData)
    (hq : jsTrim s.searchCity ≠ "") (hf : f s.searchCity = some r) :
    (handleSearch f s).weatherData
        = r :: s.weatherData.filter (fun item => decide (item.city ≠ r.city)) ∧
    (s.weatherData.countP (fun item => decide (item.city = r.city)) = 1 →
      (handleSearch f s).weatherData.length = s.weatherData.length ∧
      (handleSearch f s).weatherData.head? = some r) := by
  have hcoll : (handleSearch f s).weatherData
      = r :: s.weatherData.filter (fun item => decide (item.city ≠ r.city)) := by
    unfold handleSearch
    rw [if_neg hq, hf]
  refine ⟨hcoll, fun hcount => ⟨?_, ?_⟩⟩
  · rw [hcoll]
    simp only [List.length_cons]
    rw [length_filter_city, hcount]
    have hle := List.countP_le_length
      (p := fun item : WeatherData => decide (item.city = r.city)) (l := s.weatherData)
    omega
  · rw [hcoll]
    rfl

/-- Claim C4 amended witness: searching city "A" over a collection holding
exactly one record of city "A". -/
theorem C4_amended_search_prepends_witness :
    (handleSearch (fun _ => some wA3)
        { baseState with weatherData := [wA], searchCity := "A" }).weatherData
      = wA3 :: [wA].filter (fun item => decide (item.city ≠ wA3.city)) ∧
    ((handleSearch (fun _ => some wA3)
        { baseState with weatherData := [wA], searchCity := "A" }).weatherData.length
      = ({ baseState with weatherData := [wA], searchCity := "A" } : AppState).weatherData.length ∧
     (handleSearch (fun _ => some wA3)
        { baseState with weatherData := [wA], searchCity := "A" }).weatherData.head? = some wA3) := by
  have h := C4_amended_search_prepends (fun _ => some wA3)
    { baseState with weatherData := [wA], searchCity := "A" } wA3 (by decide) rfl
  exact ⟨h.1, h.2 (by decide)⟩
